import Mathlib

/-
  Verification of the territory-capture engine in `src/app/(tabs)/index.tsx`
  (the authoritative, newest revision of the app; `src/unnamed/part_000` is an
  earlier revision with the same engine structure).

  Coordinates are modelled over ℚ: the source performs only field operations
  and sign/threshold comparisons on latitude/longitude in the code under
  verification, so rational arithmetic reproduces its branch structure exactly.
  The haversine `getDistance` (transcendental) is kept abstract: every
  definition that calls it takes the distance function as an explicit
  parameter `dist : Coord → Coord → ℚ`, mirroring how the classifier only
  consumes the comparison `getDistance(center, targetZone) < targetZone.radius`.
-/

namespace TerritoryApp

/-- `type Coord = { latitude: number; longitude: number }` (index.tsx line 10). -/
structure Coord where
  latitude : ℚ
  longitude : ℚ
deriving DecidableEq, Repr

/-- `type TerritoryType = 'street' | 'landmark' | 'city' | 'unknown'` (line 11). -/
inductive TerritoryType where
  | street | landmark | city | unknown
deriving DecidableEq, Repr

/-- `type BuildingType = 'none' | 'factory' | 'bunker'` (line 12). -/
inductive BuildingType where
  | none | factory | bunker
deriving DecidableEq, Repr

/-- `type Territory` (index.tsx lines 14-23). `area` is `Math.floor`ed at
creation so it is an integer; `level` is an integer as well. -/
structure Territory where
  coords : List Coord
  id : String
  name : String
  type : TerritoryType
  area : ℤ
  level : ℤ
  building : BuildingType
  date : String
deriving DecidableEq, Repr

/-- The target-zone state value (index.tsx line 81):
`{ latitude, longitude, radius, name }`. -/
structure TargetZone where
  latitude : ℚ
  longitude : ℚ
  radius : ℚ
  name : String
deriving DecidableEq, Repr

/-- The cross-product determinant pattern shared by the four `d1..d4` locals of
`getIntersection` (index.tsx lines 40-43):
`orient p q r = (q.lat - p.lat)*(r.lng - p.lng) - (q.lng - p.lng)*(r.lat - p.lat)`. -/
def orient (p q r : Coord) : ℚ :=
  (q.latitude - p.latitude) * (r.longitude - p.longitude) -
    (q.longitude - p.longitude) * (r.latitude - p.latitude)

/-- `getIntersection(p1, p2, p3, p4)` (index.tsx lines 39-46): the four
orientation determinants, returning true exactly when both pairs have strictly
opposite signs. -/
def getIntersection (p1 p2 p3 p4 : Coord) : Bool :=
  let d1 := orient p1 p2 p3
  let d2 := orient p1 p2 p4
  let d3 := orient p3 p4 p1
  let d4 := orient p3 p4 p2
  decide (((d1 > 0 ∧ d2 < 0) ∨ (d1 < 0 ∧ d2 > 0)) ∧
          ((d3 > 0 ∧ d4 < 0) ∨ (d3 < 0 ∧ d4 > 0)))

/-- `getCentroid(coords)` (index.tsx lines 48-52): arithmetic mean of
latitudes and longitudes. -/
def getCentroid (coords : List Coord) : Coord :=
  { latitude := (coords.foldl (fun acc p => acc + p.latitude) 0) / (coords.length : ℚ),
    longitude := (coords.foldl (fun acc p => acc + p.longitude) 0) / (coords.length : ℚ) }

/-- `getPolygonArea(coords)` (index.tsx lines 54-63): planar shoelace sum over
raw degree coordinates, `|sum / 2| * 1.23e10`. -/
def getPolygonArea (coords : List Coord) : ℚ :=
  let n := coords.length
  let s := (List.range n).foldl (fun acc i =>
    let j := (i + 1) % n
    acc + (coords.getD i ⟨0, 0⟩).latitude * (coords.getD j ⟨0, 0⟩).longitude
        - (coords.getD j ⟨0, 0⟩).latitude * (coords.getD i ⟨0, 0⟩).longitude) 0
  |s / 2| * 12300000000

/-- Address shape returned by `Location.reverseGeocodeAsync` (the consumed
fields of index.tsx lines 159-162). `none` at the call site below models the
call throwing, timing out, or returning no address. -/
structure Address where
  name : Option String
  street : Option String
  city : Option String
  district : Option String
deriving DecidableEq, Repr

/-- The data the loop-detection branch hands to the (async) classification
step: the closed ring, its area and its centroid (index.tsx lines 138-145). -/
structure Detection where
  closed : List Coord
  area : ℚ
  center : Coord
deriving DecidableEq, Repr

/-- The scan of the `watchPositionAsync` callback (index.tsx lines 134-137):
if the appended path has length ≥ 4, walk `i` from `max(0, len - 50)` up to
`len - 2` (exclusive) and return the first `i` with
`getIntersection(last, newPoint, updated[i], updated[i+1])`, where
`last = updated[updated.length - 1]`.  (Note: `updated` already ends in
`newPoint`, so `last` IS `newPoint`; see `findLoopIndex_concat_eq_none`.) -/
def findLoopIndex (updated : List Coord) (newPoint : Coord) : Option ℕ :=
  if 4 ≤ updated.length then
    let last := updated.getD (updated.length - 1) ⟨0, 0⟩
    let start := updated.length - 50
    (List.range' start (updated.length - 2 - start)).find? fun i =>
      getIntersection last newPoint (updated.getD i ⟨0, 0⟩) (updated.getD (i + 1) ⟨0, 0⟩)
  else none

/-- The body run when the scan reports an intersection at index `i`
(index.tsx lines 138-176): slice the loop, close it, compute the area; if
`area < 20` keep the grown path and do nothing else, otherwise reset the path
to `[newPoint]` and emit the detection for classification. The first component
is the new path buffer, the second the detection passed to the capture step. -/
def handleLoop (updated : List Coord) (newPoint : Coord) (i : ℕ) :
    List Coord × Option Detection :=
  let loop := updated.drop i
  let closed := loop ++ [loop.getD 0 ⟨0, 0⟩]
  let area := getPolygonArea closed
  if area < 20 then (updated, Option.none)
  else ([newPoint], Option.some ⟨closed, area, getCentroid closed⟩)

/-- One execution of the `setPath` updater (index.tsx lines 129-181):
truncate to the last 200 entries when length > 400, append the new fix, scan
for a loop, and on detection run `handleLoop`. -/
def pathStep (curr : List Coord) (newPoint : Coord) : List Coord × Option Detection :=
  let c := if 400 < curr.length then curr.drop (curr.length - 200) else curr
  let updated := c ++ [newPoint]
  match findLoopIndex updated newPoint with
  | Option.some i => handleLoop updated newPoint i
  | Option.none => (updated, Option.none)

/-- The path buffer after one append (first component of `pathStep`). -/
def appendFix (curr : List Coord) (newPoint : Coord) : List Coord :=
  (pathStep curr newPoint).1

/-- The path buffer after feeding a whole sequence of fixes into an initially
empty buffer, one `setPath` update per fix. -/
def runFixes (ps : List Coord) : List Coord :=
  ps.foldl appendFix []

/-- Output of the classification step: territory name, category, bonus on top
of the base reward, and whether the active target zone is consumed. -/
structure ClassifyResult where
  name : String
  type : TerritoryType
  bonus : ℤ
  clearTarget : Bool
deriving DecidableEq, Repr

/-- The area-bucket classification consulting reverse geocoding
(index.tsx lines 147-165, the `else` branch): defaults are
`name = "Unknown Land"`, `type = 'street'`, `bonus = 0`; they are replaced
only when the geocoder returns an address (`geo = some addr`):
`area > 20000` gives city / `addr.district || "Sector"` / bonus 100, otherwise
street / `addr.name || addr.street || "Road"` / bonus 20. -/
def classifyByArea (area : ℚ) (geo : Option Address) : ClassifyResult :=
  match geo with
  | Option.none => ⟨"Unknown Land", TerritoryType.street, 0, false⟩
  | Option.some addr =>
      if 20000 < area then
        ⟨addr.district.getD "Sector", TerritoryType.city, 100, false⟩
      else
        ⟨(addr.name.getD (addr.street.getD "Road")), TerritoryType.street, 20, false⟩

/-- The full classification step (index.tsx lines 146-165): a target hit
(`getDistance(center, targetZone) < targetZone.radius` with an active zone)
gives the target's name, category landmark, bonus 500 and clears the zone;
otherwise the area bucket decides. `dist` abstracts the haversine
`getDistance`. -/
def classifyCapture (dist : Coord → Coord → ℚ) (targetZone : Option TargetZone)
    (center : Coord) (area : ℚ) (geo : Option Address) : ClassifyResult :=
  match targetZone with
  | Option.some tz =>
      if dist center ⟨tz.latitude, tz.longitude⟩ < tz.radius then
        ⟨tz.name, TerritoryType.landmark, 500, true⟩
      else classifyByArea area geo
  | Option.none => classifyByArea area geo

/-- The Territory record built on capture (index.tsx lines 167-171):
`level: 1`, `building: 'none'`, `area: Math.floor(area)`; `idStr` stands for
`Date.now().toString()` and `dateStr` for `new Date().toLocaleDateString()`. -/
def mkTerritory (closed : List Coord) (idStr name : String) (ty : TerritoryType)
    (area : ℚ) (dateStr : String) : Territory :=
  { coords := closed, id := idStr, name := name, type := ty,
    area := ⌊area⌋, level := 1, building := BuildingType.none, date := dateStr }

/-- The engine's mutable state: the path buffer, the territory collection,
cash, the optional target zone and the last income-collection time. -/
structure GameState where
  path : List Coord
  polygons : List Territory
  cash : ℤ
  targetZone : Option TargetZone
  lastCollected : ℤ
deriving DecidableEq, Repr

/-- The commit of one accepted capture (index.tsx lines 146-175): classify,
append the new Territory, add `10 + bonus` to cash, and clear the target zone
when the classification consumed it. -/
def commitCapture (dist : Coord → Coord → ℚ) (st : GameState) (d : Detection)
    (geo : Option Address) (idStr dateStr : String) : GameState :=
  let cr := classifyCapture dist st.targetZone d.center d.area geo
  { st with
      polygons := st.polygons ++ [mkTerritory d.closed idStr cr.name cr.type d.area dateStr],
      cash := st.cash + 10 + cr.bonus,
      targetZone := if cr.clearTarget then Option.none else st.targetZone }

/-- Applies the outcome of one `setPath` update to the whole engine state:
no detection just stores the new path; a detection additionally commits the
capture. -/
def applyStep (dist : Coord → Coord → ℚ) (st : GameState)
    (res : List Coord × Option Detection) (geo : Option Address)
    (idStr dateStr : String) : GameState :=
  match res with
  | (newPath, Option.none) => { st with path := newPath }
  | (newPath, Option.some d) =>
      { commitCapture dist st d geo idStr dateStr with path := newPath }

/-- Full processing of one incoming fix (the `watchPositionAsync` callback,
index.tsx lines 125-182, restricted to path/capture state). -/
def processFix (dist : Coord → Coord → ℚ) (st : GameState) (newPoint : Coord)
    (geo : Option Address) (idStr dateStr : String) : GameState :=
  applyStep dist st (pathStep st.path newPoint) geo idStr dateStr

/-- The two actions of `buildStructure(index, type, cost)`
(index.tsx lines 266-284). -/
inductive BuildKind where
  | factory | upgrade
deriving DecidableEq, Repr

/-- `buildStructure` (index.tsx lines 266-284): reject when `cash < cost`;
for `'factory'` reject when the territory already has a building, else set
`building := 'factory'`; for `'upgrade'` reject when `level >= 2`, else set
`level := 2`; on success debit `cash` by `cost`.  An out-of-range index is a
no-op on the state (in JS the access throws before any mutation). -/
def buildStructure (cash : ℤ) (polygons : List Territory) (index : ℕ)
    (kind : BuildKind) (cost : ℤ) : ℤ × List Territory :=
  if cash < cost then (cash, polygons)
  else
    match polygons[index]? with
    | Option.none => (cash, polygons)
    | Option.some t =>
      match kind with
      | BuildKind.factory =>
          if t.building ≠ BuildingType.none then (cash, polygons)
          else (cash - cost, polygons.set index { t with building := BuildingType.factory })
      | BuildKind.upgrade =>
          if 2 ≤ t.level then (cash, polygons)
          else (cash - cost, polygons.set index { t with level := 2 })

/-- `collectIncome` (index.tsx lines 287-316): with
`minsPassed = (now - lastCollected) / 60000`, do nothing when
`minsPassed < 1` or when no territory has a factory; otherwise pay out
`min(floor(factories * (10 + cities*5) * minsPassed), factories * 5000)` and
stamp `lastCollected := now`. Returns `(cash, lastCollected)`. -/
def collectIncome (now lastCollected cash : ℤ) (polygons : List Territory) :
    ℤ × ℤ :=
  let minsPassed : ℚ := ((now - lastCollected : ℤ) : ℚ) / 60000
  if minsPassed < 1 then (cash, lastCollected)
  else
    let factories := (polygons.filter fun p => decide (p.building = BuildingType.factory)).length
    let cities := (polygons.filter fun p => decide (p.type = TerritoryType.city)).length
    if factories = 0 then (cash, lastCollected)
    else
      let incomePerFactory : ℤ := 10 + (cities : ℤ) * 5
      let totalIncome : ℤ := ⌊(factories : ℚ) * (incomePerFactory : ℚ) * minsPassed⌋
      let payout := min totalIncome ((factories : ℤ) * 5000)
      (cash + payout, now)

/-- The consumed fields of one geocoded search result (index.tsx lines
221-231): its coordinate, display label, and distance to the user. -/
structure SearchResult where
  latitude : ℚ
  longitude : ℚ
  label : String
  dist : ℚ
deriving DecidableEq, Repr

/-- `selectSearchResult` (index.tsx lines 241-249): sets the target zone at
the result's coordinate with the constant radius 150 and the mission name
`` `${searchText} (${result.label})` ``. -/
def selectSearchResult (searchText : String) (result : SearchResult) : TargetZone :=
  { latitude := result.latitude, longitude := result.longitude,
    radius := 150, name := searchText ++ " (" ++ result.label ++ ")" }

/-- Initial engine state (index.tsx lines 68-74): empty path, no territories,
`cash = 500`, no target zone. -/
def initState : GameState :=
  { path := [], polygons := [], cash := 500, targetZone := Option.none,
    lastCollected := 0 }

/-- States reachable from the initial state through the engine's operations:
processing a fix, committing a detected capture (the async classification
block, taken here with an arbitrary detected ring as the triggering event),
building/upgrading, collecting income, and selecting a search result as the
target. External inputs (distance function, geocoder reply, id/date strings,
clock) are universally quantified. -/
inductive Reachable : GameState → Prop where
  | base : Reachable initState
  | fix : ∀ (st : GameState) (dist : Coord → Coord → ℚ) (p : Coord)
      (geo : Option Address) (idStr dateStr : String), Reachable st →
      Reachable (processFix dist st p geo idStr dateStr)
  | capture : ∀ (st : GameState) (dist : Coord → Coord → ℚ) (d : Detection)
      (geo : Option Address) (idStr dateStr : String), Reachable st →
      Reachable (commitCapture dist st d geo idStr dateStr)
  | build : ∀ (st : GameState) (index : ℕ) (kind : BuildKind) (cost : ℤ),
      Reachable st →
      Reachable { st with
        cash := (buildStructure st.cash st.polygons index kind cost).1,
        polygons := (buildStructure st.cash st.polygons index kind cost).2 }
  | collect : ∀ (st : GameState) (now : ℤ), Reachable st →
      Reachable { st with
        cash := (collectIncome now st.lastCollected st.cash st.polygons).1,
        lastCollected := (collectIncome now st.lastCollected st.cash st.polygons).2 }
  | target : ∀ (st : GameState) (s : String) (r : SearchResult), Reachable st →
      Reachable { st with targetZone := Option.some (selectSearchResult s r) }

/-! ### Helper lemmas on the scan and the path buffer -/

theorem orient_same_first (p r : Coord) : orient p p r = 0 := by
  simp [orient]

/-- A zero-length first segment never crosses anything: all four determinants
collapse to sign conditions on `0`. -/
theorem getIntersection_degenerate (p a b : Coord) :
    getIntersection p p a b = false := by
  simp [getIntersection, orient_same_first]

/-- The element the scan reads as `last` out of `l ++ [p]` is `p` itself. -/
theorem getD_concat_last (l : List Coord) (p d : Coord) :
    (l ++ [p]).getD ((l ++ [p]).length - 1) d = p := by
  simp [List.getD, List.length_append, List.getElem?_concat_length]

/-- The scan over a freshly appended path never finds an intersection:
`last` is the appended fix itself, so every test is
`getIntersection newPoint newPoint _ _ = false`. -/
theorem findLoopIndex_concat_eq_none (l : List Coord) (p : Coord) :
    findLoopIndex (l ++ [p]) p = Option.none := by
  unfold findLoopIndex
  split
  · apply List.find?_eq_none.mpr
    intro i _
    rw [getD_concat_last]
    simp [getIntersection_degenerate]
  · rfl

/-- Closed form of one `setPath` update: truncate-and-append, never a
detection. -/
theorem pathStep_eq (curr : List Coord) (p : Coord) :
    pathStep curr p =
      ((if 400 < curr.length then curr.drop (curr.length - 200) else curr) ++ [p],
        Option.none) := by
  show (match findLoopIndex _ p with
        | Option.some i => handleLoop _ p i
        | Option.none => (_, Option.none)) = _
  rw [findLoopIndex_concat_eq_none]

theorem appendFix_eq (curr : List Coord) (p : Coord) :
    appendFix curr p =
      (if 400 < curr.length then curr.drop (curr.length - 200) else curr) ++ [p] := by
  unfold appendFix
  rw [pathStep_eq]

/-- Processing a fix only replaces the path buffer; territories, cash,
target zone and the collection timestamp are untouched (a consequence of the
scan never firing). -/
theorem processFix_eq (dist : Coord → Coord → ℚ) (st : GameState) (p : Coord)
    (geo : Option Address) (idStr dateStr : String) :
    processFix dist st p geo idStr dateStr =
      { st with path := appendFix st.path p } := by
  unfold processFix applyStep
  rw [pathStep_eq, appendFix_eq]

theorem appendFix_length (curr : List Coord) (p : Coord) :
    (appendFix curr p).length =
      if 400 < curr.length then 201 else curr.length + 1 := by
  rw [appendFix_eq]
  split
  · next h => simp [List.length_drop]; omega
  · simp

theorem appendFix_length_le (curr : List Coord) (p : Coord) :
    (appendFix curr p).length ≤ 401 := by
  rw [appendFix_length]
  split <;> omega

theorem appendFix_getLast (curr : List Coord) (p : Coord) :
    (appendFix curr p).getLast? = Option.some p := by
  rw [appendFix_eq, List.getLast?_concat]

theorem runFixes_concat (ps : List Coord) (p : Coord) :
    runFixes (ps ++ [p]) = appendFix (runFixes ps) p := by
  simp [runFixes, List.foldl_append]

theorem runFixes_length_le (ps : List Coord) : (runFixes ps).length ≤ 401 := by
  induction ps using List.reverseRecOn with
  | nil => simp [runFixes]
  | append_singleton ps p _ => rw [runFixes_concat]; exact appendFix_length_le _ _

/-- Feeding `n ≤ 401` copies of one fix grows the buffer to exactly `n`
entries (no truncation can trigger below 401). -/
theorem runFixes_replicate_length (pt : Coord) :
    ∀ n, n ≤ 401 → (runFixes (List.replicate n pt)).length = n := by
  intro n
  induction n with
  | zero => intro _; simp [runFixes]
  | succ k ih =>
      intro h
      rw [List.replicate_succ', runFixes_concat, appendFix_length]
      have hk := ih (by omega)
      rw [hk]
      split
      · omega
      · rfl

theorem orient_target_eq_fst (p q : Coord) : orient p q p = 0 := by
  simp [orient]

theorem orient_target_eq_snd (p q : Coord) : orient p q q = 0 := by
  simp [orient]
  ring

/-- If any of the four determinants vanishes, the strictly-opposite-sign test
fails. -/
theorem getIntersection_eq_false_of_zero (p1 p2 p3 p4 : Coord)
    (h : orient p1 p2 p3 = 0 ∨ orient p1 p2 p4 = 0 ∨
         orient p3 p4 p1 = 0 ∨ orient p3 p4 p2 = 0) :
    getIntersection p1 p2 p3 p4 = false := by
  rcases h with h | h | h | h <;> simp [getIntersection, h]

/-! ### Claim theorems -/

/-- C1 (code_bug record): the spec says every append scans the window testing
whether the newest segment `(path[len-2], fix)` crosses `(path[i], path[i+1])`
and reports a loop at the first crossing. The code instead passes
`updated[updated.length - 1]` — which IS the appended fix — as the first
endpoint, so each test is `getIntersection(fix, fix, ...)`, a zero-length
segment that never satisfies the strict-sign test: the scan can never report
a loop. First conjunct: no append ever produces a detection. Second and third
conjuncts evaluate the concrete failing input: path `[(0,0),(2,0),(2,2)]`
with appended fix `(1,-1)` yields no detection, even though the true newest
segment `((2,2),(1,-1))` properly crosses segment `((0,0),(2,0))` (window
index `i = 0`) according to the code's own `getIntersection`. -/
theorem C1_loop_scan_never_fires :
    (∀ (curr : List Coord) (p : Coord), (pathStep curr p).2 = Option.none) ∧
    pathStep [⟨0, 0⟩, ⟨2, 0⟩, ⟨2, 2⟩] ⟨1, -1⟩ =
      ([⟨0, 0⟩, ⟨2, 0⟩, ⟨2, 2⟩, ⟨1, -1⟩], Option.none) ∧
    getIntersection ⟨2, 2⟩ ⟨1, -1⟩ ⟨0, 0⟩ ⟨2, 0⟩ = true := by
  refine ⟨fun curr p => by rw [pathStep_eq], ?_, ?_⟩
  · rw [pathStep_eq]
    norm_num
  · norm_num [getIntersection, orient]

/-- C4 (counterexample): the claim bounds the buffer by the cap 400, but
truncation only triggers on the append AFTER the length has exceeded 400, so
feeding 401 fixes (here 401 identical fixes — no intersection is ever found)
grows the buffer to 401 > 400 entries. -/
theorem C4_counterexample :
    (runFixes (List.replicate 401 ⟨0, 0⟩)).length = 401 ∧
    400 < (runFixes (List.replicate 401 ⟨0, 0⟩)).length := by
  have h := runFixes_replicate_length ⟨0, 0⟩ 401 (le_refl 401)
  omega

/-- C4 (amended): for every sequence of appended fixes (no intersection is
ever found — with this code that holds for every sequence, see C1), the path
buffer's length never exceeds 401 = cap + 1, and after each append the most
recently appended fix is the buffer's last element. -/
theorem C4_amended_bounded_buffer :
    ∀ ps : List Coord,
      (runFixes ps).length ≤ 401 ∧
      ∀ p : Coord, (runFixes (ps ++ [p])).getLast? = Option.some p := by
  intro ps
  refine ⟨runFixes_length_le ps, fun p => ?_⟩
  rw [runFixes_concat]
  exact appendFix_getLast _ _

/-- C6 (confirmed): `getIntersection` returns true exactly when the four
orientation determinants have strictly opposite signs on both sides (first
conjunct); any vanishing determinant — covering every collinear or touching
configuration — forces false (second conjunct); in particular degenerate and
shared-endpoint segment pairs always give false (third conjunct). -/
theorem C6_intersection_characterization (p1 p2 p3 p4 : Coord) :
    (getIntersection p1 p2 p3 p4 = true ↔
      ((0 < orient p1 p2 p3 ∧ orient p1 p2 p4 < 0) ∨
        (orient p1 p2 p3 < 0 ∧ 0 < orient p1 p2 p4)) ∧
      ((0 < orient p3 p4 p1 ∧ orient p3 p4 p2 < 0) ∨
        (orient p3 p4 p1 < 0 ∧ 0 < orient p3 p4 p2))) ∧
    ((orient p1 p2 p3 = 0 ∨ orient p1 p2 p4 = 0 ∨
      orient p3 p4 p1 = 0 ∨ orient p3 p4 p2 = 0) →
      getIntersection p1 p2 p3 p4 = false) ∧
    ((p1 = p2 ∨ p3 = p4 ∨ p3 = p1 ∨ p3 = p2 ∨ p4 = p1 ∨ p4 = p2) →
      getIntersection p1 p2 p3 p4 = false) := by
  refine ⟨by simp [getIntersection], getIntersection_eq_false_of_zero p1 p2 p3 p4, ?_⟩
  rintro (h | h | h | h | h | h) <;> subst h
  · exact getIntersection_eq_false_of_zero _ _ _ _ (Or.inl (orient_same_first _ _))
  · exact getIntersection_eq_false_of_zero _ _ _ _
      (Or.inr (Or.inr (Or.inl (orient_same_first _ _))))
  · exact getIntersection_eq_false_of_zero _ _ _ _ (Or.inl (orient_target_eq_fst _ _))
  · exact getIntersection_eq_false_of_zero _ _ _ _ (Or.inl (orient_target_eq_snd _ _))
  · exact getIntersection_eq_false_of_zero _ _ _ _
      (Or.inr (Or.inl (orient_target_eq_fst _ _)))
  · exact getIntersection_eq_false_of_zero _ _ _ _
      (Or.inr (Or.inl (orient_target_eq_snd _ _)))

/-- C6 witness: the spec's own examples — the diagonals of a square cross
(true) and a segment against itself gives false. -/
theorem C6_witness :
    getIntersection ⟨0, 0⟩ ⟨2, 2⟩ ⟨0, 2⟩ ⟨2, 0⟩ = true ∧
    getIntersection ⟨0, 0⟩ ⟨2, 2⟩ ⟨0, 0⟩ ⟨2, 2⟩ = false := by
  constructor
  · exact (C6_intersection_characterization ⟨0, 0⟩ ⟨2, 2⟩ ⟨0, 2⟩ ⟨2, 0⟩).1.mpr
      (by norm_num [orient])
  · exact (C6_intersection_characterization ⟨0, 0⟩ ⟨2, 2⟩ ⟨0, 0⟩ ⟨2, 2⟩).2.2
      (Or.inr (Or.inr (Or.inl rfl)))

/-- C2 (counterexample): at a detected loop index with a sub-threshold ring
(four coincident fixes — the GPS-jitter case the threshold exists for, ring
area 0 < 20), the rejection branch returns the FULL updated path, which is not
the single newest fix: the claimed reset does not happen. -/
theorem C2_counterexample :
    getPolygonArea [(⟨0, 0⟩ : Coord), ⟨0, 0⟩, ⟨0, 0⟩, ⟨0, 0⟩, ⟨0, 0⟩] < 20 ∧
    handleLoop [⟨0, 0⟩, ⟨0, 0⟩, ⟨0, 0⟩, ⟨0, 0⟩] ⟨0, 0⟩ 0 =
      ([⟨0, 0⟩, ⟨0, 0⟩, ⟨0, 0⟩, ⟨0, 0⟩], Option.none) ∧
    ([(⟨0, 0⟩ : Coord), ⟨0, 0⟩, ⟨0, 0⟩, ⟨0, 0⟩] : List Coord) ≠ [⟨0, 0⟩] := by
  refine ⟨by norm_num [getPolygonArea, List.range_succ], ?_, by simp⟩
  norm_num [handleLoop, getPolygonArea, List.range_succ]

/-- C2 (amended): on a detected loop whose closed ring has area below the
threshold 20, the rejection branch keeps the full updated path (the buffer is
NOT reset to the single newest fix), and no Territory is created and cash is
unchanged: applying the branch outcome to any engine state only stores the
grown path. -/
theorem C2_amended_reject_keeps_path (updated : List Coord) (newPoint : Coord)
    (i : ℕ)
    (h : getPolygonArea (updated.drop i ++ [(updated.drop i).getD 0 ⟨0, 0⟩]) < 20) :
    handleLoop updated newPoint i = (updated, Option.none) ∧
    ∀ (dist : Coord → Coord → ℚ) (st : GameState) (geo : Option Address)
      (idStr dateStr : String),
      applyStep dist st (handleLoop updated newPoint i) geo idStr dateStr =
        { st with path := updated } := by
  have h1 : handleLoop updated newPoint i = (updated, Option.none) := by
    simp only [handleLoop]
    rw [if_pos h]
  refine ⟨h1, fun dist st geo idStr dateStr => ?_⟩
  rw [h1]
  rfl

/-- C2 witness: the concrete sub-threshold loop of the counterexample indeed
keeps the 4-entry path. -/
theorem C2_witness :
    handleLoop [⟨0, 1⟩, ⟨0, 0⟩, ⟨0, 0⟩, ⟨0, 0⟩] ⟨0, 0⟩ 1 =
      ([⟨0, 1⟩, ⟨0, 0⟩, ⟨0, 0⟩, ⟨0, 0⟩], Option.none) :=
  (C2_amended_reject_keeps_path [⟨0, 1⟩, ⟨0, 0⟩, ⟨0, 0⟩, ⟨0, 0⟩] ⟨0, 0⟩ 1
    (by norm_num [getPolygonArea, List.range_succ])).1

/-- C3 (counterexample): an accepted capture with ring area 30000 (the
`area > 20000` city bucket, whose claimed failure-path bonus is 100 on top of
the base 10) and a failed reverse-geocode call commits with cash
`500 + 10 = 510`, not `500 + 10 + 100 = 610`, and the territory is classified
street, not city: on geocode failure the bucket bonus is NOT granted. -/
theorem C3_counterexample :
    (commitCapture (fun _ _ => 0) initState ⟨[⟨0, 0⟩], 30000, ⟨0, 0⟩⟩
        Option.none "1" "d").cash = 510 ∧
    (commitCapture (fun _ _ => 0) initState ⟨[⟨0, 0⟩], 30000, ⟨0, 0⟩⟩
        Option.none "1" "d").polygons.map Territory.type = [TerritoryType.street] ∧
    (510 : ℤ) ≠ 500 + 10 + 100 := by
  refine ⟨?_, ?_, by norm_num⟩ <;>
    norm_num [commitCapture, classifyCapture, classifyByArea, initState, mkTerritory]

/-- C3 (amended): when the reverse-geocode call fails, throws, or returns no
address (`geo = none`), every capture that reaches that call — one with no
active target zone, or one whose active zone is missed (centroid distance not
below the radius) — still succeeds: a Territory with the fallback literal
name "Unknown Land" is appended, but it is always classified street with
bonus 0, so the reward is exactly the base 10 with no area-bucket bonus
regardless of the area, and the target zone (if any) is left in place. -/
theorem C3_amended_geocode_failure (dist : Coord → Coord → ℚ) (st : GameState)
    (d : Detection) (idStr dateStr : String)
    (h : ∀ tz, st.targetZone = Option.some tz →
      ¬ dist d.center ⟨tz.latitude, tz.longitude⟩ < tz.radius) :
    commitCapture dist st d Option.none idStr dateStr =
      { st with
          polygons := st.polygons ++
            [mkTerritory d.closed idStr "Unknown Land" TerritoryType.street d.area dateStr],
          cash := st.cash + 10 } := by
  rcases htz : st.targetZone with _ | tz
  · simp [commitCapture, classifyCapture, classifyByArea, htz]
  · have hmiss := h tz htz
    simp [commitCapture, classifyCapture, classifyByArea, htz, hmiss]

/-- C3 witness: a concrete geocode-failure capture with an active but missed
target zone (distance 1000 ≥ radius 150) and city-bucket area 30000 still
commits, as street with name "Unknown Land" and cash 500 + 10, keeping the
zone. -/
theorem C3_witness :
    commitCapture (fun _ _ => 1000)
        { initState with targetZone := Option.some ⟨5, 6, 150, "Target"⟩ }
        ⟨[⟨0, 0⟩], 30000, ⟨0, 0⟩⟩ Option.none "1" "d" =
      { initState with
          polygons := [mkTerritory [⟨0, 0⟩] "1" "Unknown Land" TerritoryType.street 30000 "d"],
          cash := 510,
          targetZone := Option.some ⟨5, 6, 150, "Target"⟩ } := by
  have h := C3_amended_geocode_failure (fun _ _ => 1000)
    { initState with targetZone := Option.some ⟨5, 6, 150, "Target"⟩ }
    ⟨[⟨0, 0⟩], 30000, ⟨0, 0⟩⟩ "1" "d"
    (fun tz htz => by
      have h2 : Option.some (⟨5, 6, 150, "Target"⟩ : TargetZone) = Option.some tz := htz
      have h3 : tz = ⟨5, 6, 150, "Target"⟩ := (Option.some.inj h2).symm
      subst h3
      norm_num)
  rw [h]
  norm_num [initState]

/-- C5 (confirmed): with an active target zone whose distance from the ring's
centroid is strictly below its radius, the committed Territory is category
landmark with the target's name, the reward is base 10 plus bonus 500, and
the target zone is cleared — for EVERY geocoder reply `geo` and every ring
area `d.area`, so in particular even when `d.area > 20000` would otherwise
classify the ring as city. -/
theorem C5_target_hit_priority (dist : Coord → Coord → ℚ) (st : GameState)
    (d : Detection) (geo : Option Address) (idStr dateStr : String)
    (tz : TargetZone)
    (h1 : st.targetZone = Option.some tz)
    (h2 : dist d.center ⟨tz.latitude, tz.longitude⟩ < tz.radius) :
    commitCapture dist st d geo idStr dateStr =
      { st with
          polygons := st.polygons ++
            [mkTerritory d.closed idStr tz.name TerritoryType.landmark d.area dateStr],
          cash := st.cash + 10 + 500,
          targetZone := Option.none } := by
  simp [commitCapture, classifyCapture, h1, h2]

/-- C5 witness: a concrete target hit with ring area 30000 (> 20000, i.e. a
would-be city) and an available address still commits as landmark with the
target's name and reward 10 + 500 on top of the starting cash 500, clearing
the zone. -/
theorem C5_witness :
    commitCapture (fun _ _ => 0)
        { initState with targetZone := Option.some ⟨5, 6, 150, "Target"⟩ }
        ⟨[⟨0, 0⟩], 30000, ⟨0, 0⟩⟩
        (Option.some ⟨Option.none, Option.none, Option.none, Option.none⟩) "1" "d" =
      { initState with
          polygons := [mkTerritory [⟨0, 0⟩] "1" "Target" TerritoryType.landmark 30000 "d"],
          cash := 1010,
          targetZone := Option.none } := by
  have h := C5_target_hit_priority (fun _ _ => 0)
    { initState with targetZone := Option.some ⟨5, 6, 150, "Target"⟩ }
    ⟨[⟨0, 0⟩], 30000, ⟨0, 0⟩⟩
    (Option.some ⟨Option.none, Option.none, Option.none, Option.none⟩) "1" "d"
    ⟨5, 6, 150, "Target"⟩ rfl (by norm_num)
  rw [h]
  norm_num [initState]

/-- C7 (confirmed): `buildStructure` rejects with no state mutation when
`cash < cost`, when building a factory on a territory that already has a
building, and when upgrading a territory already at max level (`level ≥ 2`);
otherwise it debits cash by exactly `cost` and replaces only the target
territory's `building` (resp. `level`) via `List.set`, leaving that
territory's other fields and every other territory unchanged. -/
theorem C7_build_upgrade_guarded (cash : ℤ) (ps : List Territory) (index : ℕ)
    (cost : ℤ) (t : Territory) (ht : ps[index]? = Option.some t) :
    (∀ kind, cash < cost → buildStructure cash ps index kind cost = (cash, ps)) ∧
    (cost ≤ cash → t.building ≠ BuildingType.none →
      buildStructure cash ps index BuildKind.factory cost = (cash, ps)) ∧
    (cost ≤ cash → 2 ≤ t.level →
      buildStructure cash ps index BuildKind.upgrade cost = (cash, ps)) ∧
    (cost ≤ cash → t.building = BuildingType.none →
      buildStructure cash ps index BuildKind.factory cost =
        (cash - cost, ps.set index { t with building := BuildingType.factory })) ∧
    (cost ≤ cash → t.level < 2 →
      buildStructure cash ps index BuildKind.upgrade cost =
        (cash - cost, ps.set index { t with level := 2 })) := by
  refine ⟨fun kind h => by simp [buildStructure, h], ?_, ?_, ?_, ?_⟩ <;> intro h1 h2
  · simp [buildStructure, not_lt.mpr h1, ht, h2]
  · simp [buildStructure, not_lt.mpr h1, ht, h2]
  · simp [buildStructure, not_lt.mpr h1, ht, h2]
  · simp [buildStructure, not_lt.mpr h1, ht, not_le.mpr h2]

/-- C7 witness: building a factory for 300 on a fresh level-1 territory with
cash 500 debits to 200 and flips only the `building` field. -/
theorem C7_witness :
    buildStructure 500
        [⟨[], "1", "n", TerritoryType.street, 0, 1, BuildingType.none, "d"⟩]
        0 BuildKind.factory 300 =
      (200, [⟨[], "1", "n", TerritoryType.street, 0, 1, BuildingType.factory, "d"⟩]) := by
  have h := (C7_build_upgrade_guarded 500
    [⟨[], "1", "n", TerritoryType.street, 0, 1, BuildingType.none, "d"⟩] 0 300
    ⟨[], "1", "n", TerritoryType.street, 0, 1, BuildingType.none, "d"⟩
    rfl).2.2.2.1 (by norm_num) rfl
  rw [h]
  norm_num [List.set]

/-- C8 (confirmed): `collectIncome` leaves cash and the collection timestamp
unchanged when less than one minute (60000 ms) has passed or when no
territory has a factory; otherwise cash grows by exactly
`min(floor(factories * (10 + cities*5) * minutesPassed), factories * 5000)`
with `minutesPassed = (now - lastCollected)/60000`, `factories` the number of
territories with a factory built and `cities` the number of city territories,
and `lastCollected` is stamped to `now`. -/
theorem C8_collect_income (now lastCollected cash : ℤ) (ps : List Territory) :
    (now - lastCollected < 60000 →
      collectIncome now lastCollected cash ps = (cash, lastCollected)) ∧
    ((ps.filter fun p => decide (p.building = BuildingType.factory)).length = 0 →
      collectIncome now lastCollected cash ps = (cash, lastCollected)) ∧
    (60000 ≤ now - lastCollected →
      0 < (ps.filter fun p => decide (p.building = BuildingType.factory)).length →
      collectIncome now lastCollected cash ps =
        (cash + min
            ⌊((ps.filter fun p => decide (p.building = BuildingType.factory)).length : ℚ) *
              (((10 + ((ps.filter fun p => decide (p.type = TerritoryType.city)).length : ℤ) * 5 : ℤ)) : ℚ) *
              (((now - lastCollected : ℤ) : ℚ) / 60000)⌋
            (((ps.filter fun p => decide (p.building = BuildingType.factory)).length : ℤ) * 5000),
          now)) := by
  refine ⟨?_, ?_, ?_⟩
  · intro h
    have hm : ((now - lastCollected : ℤ) : ℚ) / 60000 < 1 := by
      rw [div_lt_one (by norm_num)]
      exact_mod_cast h
    simp only [collectIncome]
    rw [if_pos hm]
  · intro h
    simp only [collectIncome]
    split <;> rfl
  · intro h1 h2
    have hm : ¬ (((now - lastCollected : ℤ) : ℚ) / 60000 < 1) := by
      rw [not_lt, le_div_iff₀ (by norm_num)]
      have : (60000 : ℚ) ≤ ((now - lastCollected : ℤ) : ℚ) := by exact_mod_cast h1
      linarith
    have hf : ¬ ((ps.filter fun p => decide (p.building = BuildingType.factory)).length = 0) := by
      omega
    simp only [collectIncome]
    rw [if_neg hm, if_neg hf]

/-- C8 witness: two minutes after the last collection with one factory and no
cities, the payout is `min(floor(1 * 10 * 2), 5000) = 20` and the timestamp
is stamped. -/
theorem C8_witness :
    collectIncome 120000 0 0
        [⟨[], "1", "n", TerritoryType.street, 0, 1, BuildingType.factory, "d"⟩] =
      (20, 120000) := by
  have h := (C8_collect_income 120000 0 0
    [⟨[], "1", "n", TerritoryType.street, 0, 1, BuildingType.factory, "d"⟩]).2.2
    (by norm_num) (by simp [List.filter])
  rw [h]
  norm_num [List.filter, show ((120000 - 0 : ℤ) : ℚ) / 60000 = 2 by norm_num,
    show decide (TerritoryType.street = TerritoryType.city) = false from rfl,
    show decide (BuildingType.factory = BuildingType.factory) = true from rfl]

/-- Case analysis on what `buildStructure` does to the territory list: it is
unchanged, or exactly one in-range territory has its `building` set to
factory, or exactly one has its `level` set to 2. -/
theorem buildStructure_snd_cases (cash : ℤ) (ps : List Territory) (index : ℕ)
    (kind : BuildKind) (cost : ℤ) :
    (buildStructure cash ps index kind cost).2 = ps ∨
    (∃ t, ps[index]? = Option.some t ∧
      ((buildStructure cash ps index kind cost).2 =
          ps.set index { t with building := BuildingType.factory } ∨
        (buildStructure cash ps index kind cost).2 =
          ps.set index { t with level := 2 })) := by
  by_cases hc : cash < cost
  · exact Or.inl (by simp [buildStructure, hc])
  · rcases hg : ps[index]? with _ | t
    · exact Or.inl (by simp [buildStructure, hc, hg])
    · cases kind
      · by_cases hb : t.building = BuildingType.none
        · exact Or.inr ⟨t, rfl, Or.inl (by simp [buildStructure, hc, hg, hb])⟩
        · exact Or.inl (by simp [buildStructure, hc, hg, hb])
      · by_cases hl : 2 ≤ t.level
        · exact Or.inl (by simp [buildStructure, hc, hg, hl])
        · exact Or.inr ⟨t, rfl, Or.inr (by simp [buildStructure, hc, hg, hl])⟩

/-- C9 (confirmed): in every reachable engine state, every territory's level
is 1 or 2 — territories are created at level 1 by the capture commit, the
only level mutation (`buildStructure` upgrade) sets level to 2, and it is
rejected when `level ≥ 2`. -/
theorem C9_level_invariant (st : GameState) (h : Reachable st) :
    ∀ t ∈ st.polygons, t.level = 1 ∨ t.level = 2 := by
  induction h with
  | base => intro t ht; simp [initState] at ht
  | fix st dist p geo idStr dateStr _ ih =>
      rw [processFix_eq]
      exact ih
  | capture st dist d geo idStr dateStr _ ih =>
      intro t ht
      simp only [commitCapture, List.mem_append, List.mem_singleton] at ht
      rcases ht with ht | ht
      · exact ih t ht
      · subst ht
        exact Or.inl rfl
  | build st index kind cost _ ih =>
      intro t ht
      simp only at ht
      rcases buildStructure_snd_cases st.cash st.polygons index kind cost with
        hu | ⟨t0, hg, hset | hset⟩
      · rw [hu] at ht
        exact ih t ht
      · rw [hset] at ht
        rcases List.mem_or_eq_of_mem_set ht with hm | he
        · exact ih t hm
        · subst he
          exact ih t0 (List.getElem?_mem hg)
      · rw [hset] at ht
        rcases List.mem_or_eq_of_mem_set ht with hm | he
        · exact ih t hm
        · subst he
          exact Or.inr rfl
  | collect st now _ ih =>
      intro t ht
      simp only at ht
      exact ih t ht
  | target st s r _ ih =>
      intro t ht
      simp only at ht
      exact ih t ht

/-- C9 witness: the territory created by a concrete reachable capture commit
has level 1. -/
theorem C9_witness :
    (mkTerritory [⟨0, 0⟩] "1" "Unknown Land" TerritoryType.street 30 "d").level = 1 ∨
    (mkTerritory [⟨0, 0⟩] "1" "Unknown Land" TerritoryType.street 30 "d").level = 2 := by
  apply C9_level_invariant
    (commitCapture (fun _ _ => 0) initState ⟨[⟨0, 0⟩], 30, ⟨0, 0⟩⟩ Option.none "1" "d")
    (Reachable.capture initState (fun _ _ => 0) ⟨[⟨0, 0⟩], 30, ⟨0, 0⟩⟩
      Option.none "1" "d" Reachable.base)
  simp [commitCapture, classifyCapture, classifyByArea, initState]

/-- C10 (confirmed): in every reachable state the active target zone (when
present) has radius exactly 150 — `selectSearchResult` is the only operation
that installs one and it fixes `radius := 150` — and, for a zone installed
from a search result, the capture classifier grants the 500 target bonus
exactly when the distance from the ring's centroid to the selected result's
coordinate is strictly below 150. -/
theorem C10_target_zone_radius :
    (∀ st : GameState, Reachable st → ∀ tz : TargetZone,
      st.targetZone = Option.some tz → tz.radius = 150) ∧
    (∀ (s : String) (r : SearchResult) (dist : Coord → Coord → ℚ)
        (center : Coord) (area : ℚ) (geo : Option Address),
      (selectSearchResult s r).radius = 150 ∧
      ((classifyCapture dist (Option.some (selectSearchResult s r)) center area geo).bonus
          = 500 ↔
        dist center ⟨r.latitude, r.longitude⟩ < 150)) := by
  constructor
  · intro st h
    induction h with
    | base => intro tz htz; simp [initState] at htz
    | fix st dist p geo idStr dateStr _ ih =>
        rw [processFix_eq]
        exact ih
    | capture st dist d geo idStr dateStr _ ih =>
        intro tz htz
        simp only [commitCapture] at htz
        split at htz
        · exact absurd htz (by simp)
        · exact ih tz htz
    | build st index kind cost _ ih => exact ih
    | collect st now _ ih => exact ih
    | target st s r _ ih =>
        intro tz htz
        simp only [Option.some.injEq] at htz
        subst htz
        rfl
  · intro s r dist center area geo
    refine ⟨rfl, ?_⟩
    by_cases hd : dist center ⟨r.latitude, r.longitude⟩ < 150
    · simp [classifyCapture, selectSearchResult, hd]
    · simp only [classifyCapture, selectSearchResult]
      rw [if_neg hd]
      simp only [hd, iff_false]
      rcases geo with _ | addr
      · simp [classifyByArea]
      · simp only [classifyByArea]
        split <;> norm_num

/-- C10 witness: a concretely selected search result installs a zone of
radius 150 in a reachable state, and the constant-zero distance function
makes the classifier grant the 500 bonus there. -/
theorem C10_witness :
    (selectSearchResult "A" ⟨1, 2, "L", 3⟩).radius = 150 ∧
    (classifyCapture (fun _ _ => 0)
        (Option.some (selectSearchResult "A" ⟨1, 2, "L", 3⟩)) ⟨0, 0⟩ 5
        Option.none).bonus = 500 := by
  constructor
  · exact C10_target_zone_radius.1
      { initState with targetZone := Option.some (selectSearchResult "A" ⟨1, 2, "L", 3⟩) }
      (Reachable.target initState "A" ⟨1, 2, "L", 3⟩ Reachable.base)
      (selectSearchResult "A" ⟨1, 2, "L", 3⟩) rfl
  · exact (C10_target_zone_radius.2 "A" ⟨1, 2, "L", 3⟩ (fun _ _ => 0)
      ⟨0, 0⟩ 5 Option.none).2.mpr (by norm_num)

end TerritoryApp
